import Mathlib

/-!
Shallow embedding of the wolf-tracker data-access and report layer.

The embedding follows the Python source files:
  src/app/logic.py     : pure report calculations (age, unit conversion, BMR, TDEE)
  src/app/database.py  : SQLite-backed record repository, modelled as pure
                         functions over an explicit database state (lists of rows)
  src/main.py          : the evening-report orchestration (weight lookup,
                         aggregation, deficit computation, process exit on
                         missing weight)
  src/app/ui.py        : the deficit/surplus branch of display_calorie_summary

Reals in the source (SQLite REAL, Python float) are modelled as rationals;
all numeric literals of the source are exact rationals here. Python round()
is modelled as round-half-to-even, int() on a number as truncation toward
zero. SQL aggregation SUM returns NULL on an empty row set, which the code
maps to 0; this is modelled explicitly.
-/

namespace WolfTracker

/-- Calendar date with year, month and day components, mirroring the pieces
of Python datetime.date that the code uses. Date strings such as
"1990-01-15" in the source are modelled as already-parsed dates. -/
structure Date where
  year : Int
  month : Int
  day : Int
  deriving DecidableEq, Repr

/-- Pounds to kilograms, from logic.py _lbs_to_kg: weight_lbs * 0.453592. -/
def lbs_to_kg (weight_lbs : ℚ) : ℚ :=
  weight_lbs * (453592 / 1000000)

/-- Age in whole years, from logic.py _calculate_age:
today.year - birth.year - ((today.month, today.day) < (birth.month, birth.day)),
where the Python tuple comparison is lexicographic and the boolean is used
as the integer 0 or 1. -/
def calculate_age (birth today : Date) : Int :=
  today.year - birth.year -
    (if today.month < birth.month ∨ (today.month = birth.month ∧ today.day < birth.day)
     then 1 else 0)

/-- User profile row from the user_profile table (singleton, profile_id 1). -/
structure Profile where
  user_name : String
  height_cm : ℚ
  birth_date : Date
  sex_at_birth : String
  deriving DecidableEq, Repr

/-- Python str.lower() on the ASCII strings the program stores: lowercase
every character. -/
def pyLower (s : String) : String :=
  ⟨s.data.map Char.toLower⟩

/-- Mifflin-St Jeor BMR from logic.py calculate_bmr. The source lowercases
the stored sex_at_birth string before comparing with "male" and "female",
and defaults to the male formula on any other value. The ambient
date.today() of the source is passed explicitly as today. -/
def calculate_bmr (profile : Profile) (weight_lbs : ℚ) (today : Date) : ℚ :=
  let age : ℚ := (calculate_age profile.birth_date today : ℚ)
  let weight_kg := lbs_to_kg weight_lbs
  let height_cm := profile.height_cm
  if pyLower profile.sex_at_birth = "male" then
    10 * weight_kg + (25 / 4) * height_cm - 5 * age + 5
  else if pyLower profile.sex_at_birth = "female" then
    10 * weight_kg + (25 / 4) * height_cm - 5 * age - 161
  else
    10 * weight_kg + (25 / 4) * height_cm - 5 * age + 5

/-- The male branch of the Mifflin-St Jeor formula, as a standalone
function for stating the BMR theorems. -/
def bmrMale (profile : Profile) (weight_lbs : ℚ) (today : Date) : ℚ :=
  10 * lbs_to_kg weight_lbs + (25 / 4) * profile.height_cm
    - 5 * (calculate_age profile.birth_date today : ℚ) + 5

/-- The female branch of the Mifflin-St Jeor formula, as a standalone
function for stating the BMR theorems. -/
def bmrFemale (profile : Profile) (weight_lbs : ℚ) (today : Date) : ℚ :=
  10 * lbs_to_kg weight_lbs + (25 / 4) * profile.height_cm
    - 5 * (calculate_age profile.birth_date today : ℚ) - 161

/-- TDEE from logic.py calculate_tdee: bmr * 1.2 + activity_calories. -/
def calculate_tdee (bmr : ℚ) (activity_calories : Int) : ℚ :=
  bmr * (6 / 5) + (activity_calories : ℚ)

/-- Python round() to an integer: round half to even, modelled exactly on
rationals. Used for round(tdee - consumed_calories) in src/main.py. -/
def pythonRound (q : ℚ) : Int :=
  let f := ⌊q⌋
  let r := q - (f : ℚ)
  if r < 1 / 2 then f
  else if 1 / 2 < r then f + 1
  else if f % 2 = 0 then f else f + 1

/-- Python int() applied to a number: truncation toward zero. -/
def ratTrunc (q : ℚ) : Int :=
  if 0 ≤ q then ⌊q⌋ else -⌊-q⌋

/-- Row of the daily_log table. log_date is the primary key; the five text
columns are nullable. -/
structure DailyLogRow where
  log_date : String
  dreams : Option String
  intentions : Option String
  review_of_intentions : Option String
  accomplishment : Option String
  mood : Option String
  deriving DecidableEq, Repr

/-- Row of the weight_log table. -/
structure WeightRow where
  weight_id : Nat
  log_date : String
  weight_lbs : ℚ
  deriving DecidableEq, Repr

/-- Row of the food_items table (name is UNIQUE in the schema). -/
structure FoodRow where
  food_id : Nat
  name : String
  calories : Int
  deriving DecidableEq, Repr

/-- Row of the nutrition_log table. -/
structure NutritionRow where
  nutrition_id : Nat
  log_date : String
  food_id : Nat
  quantity : ℚ
  deriving DecidableEq, Repr

/-- Row of the exercises table (name is UNIQUE in the schema). -/
structure ExerciseRow where
  exercise_id : Nat
  name : String
  calories_burned : Int
  deriving DecidableEq, Repr

/-- Row of the workouts table (name is UNIQUE in the schema). -/
structure WorkoutRow where
  workout_id : Nat
  name : String
  deriving DecidableEq, Repr

/-- Row of the workout_log table. -/
structure WorkoutLogRow where
  workout_log_id : Nat
  log_date : String
  workout_id : Nat
  deriving DecidableEq, Repr

/-- The database state: the tables of the schema that the exercised
operations touch, each as a list of rows in insertion order. -/
structure DB where
  daily_log : List DailyLogRow
  weight_log : List WeightRow
  food_items : List FoodRow
  nutrition_log : List NutritionRow
  workouts : List WorkoutRow
  exercises : List ExerciseRow
  workout_log : List WorkoutLogRow
  deriving DecidableEq, Repr

/-- The empty database, as produced by create_tables on a fresh file. -/
def emptyDB : DB :=
  ⟨[], [], [], [], [], [], []⟩

/-- Next value of an INTEGER PRIMARY KEY column: SQLite assigns one more
than the largest existing rowid. -/
def nextId (ids : List Nat) : Nat :=
  ids.foldr (fun a b => max a b) 0 + 1

/-- A daily_log row freshly created by INSERT OR IGNORE INTO daily_log
(log_date) VALUES (?): every other column is NULL. -/
def blankDailyLog (d : String) : DailyLogRow :=
  ⟨d, none, none, none, none, none⟩

/-- database.py ensure_daily_log_exists: INSERT OR IGNORE INTO daily_log
(log_date) VALUES (?). The insert is ignored exactly when a row with this
primary key already exists; the operation never raises. -/
def ensure_daily_log_exists (d : String) (db : DB) : DB :=
  if db.daily_log.any (fun r => r.log_date == d) then db
  else { db with daily_log := db.daily_log ++ [blankDailyLog d] }

/-- database.py save_morning_log: ensure_daily_log_exists, then
UPDATE daily_log SET dreams = ?, intentions = ? WHERE log_date = ?. -/
def save_morning_log (d dreams intentions : String) (db : DB) : DB :=
  let db1 := ensure_daily_log_exists d db
  { db1 with daily_log := db1.daily_log.map (fun r =>
      if r.log_date == d then { r with dreams := some dreams, intentions := some intentions }
      else r) }

/-- database.py save_evening_log: ensure_daily_log_exists, then
UPDATE daily_log SET review_of_intentions = ?, accomplishment = ?, mood = ?
WHERE log_date = ?. -/
def save_evening_log (d review accomplishment mood : String) (db : DB) : DB :=
  let db1 := ensure_daily_log_exists d db
  { db1 with daily_log := db1.daily_log.map (fun r =>
      if r.log_date == d then
        { r with review_of_intentions := some review,
                 accomplishment := some accomplishment, mood := some mood }
      else r) }

/-- database.py clear_morning_data_for_date: a single
UPDATE daily_log SET dreams = NULL, intentions = NULL WHERE log_date = ?;
no ensure step, so an absent row stays absent. -/
def clear_morning_data_for_date (d : String) (db : DB) : DB :=
  { db with daily_log := db.daily_log.map (fun r =>
      if r.log_date == d then { r with dreams := none, intentions := none }
      else r) }

/-- database.py clear_evening_data_for_date: DELETE FROM nutrition_log and
workout_log for the date, then UPDATE daily_log nulling the three evening
columns WHERE log_date = ?; no ensure step. -/
def clear_evening_data_for_date (d : String) (db : DB) : DB :=
  { db with
      nutrition_log := db.nutrition_log.filter (fun r => !(r.log_date == d)),
      workout_log := db.workout_log.filter (fun r => !(r.log_date == d)),
      daily_log := db.daily_log.map (fun r =>
        if r.log_date == d then
          { r with review_of_intentions := none, accomplishment := none, mood := none }
        else r) }

/-- database.py add_food_item: INSERT OR IGNORE INTO food_items keyed by
the UNIQUE name column, then SELECT food_id FROM food_items WHERE name = ?.
Returns the updated state and the id the SELECT yields. -/
def add_food_item (name : String) (calories : Int) (db : DB) : DB × Nat :=
  match db.food_items.find? (fun fi => fi.name == name) with
  | some fi => (db, fi.food_id)
  | none =>
      let fid := nextId (db.food_items.map (fun fi => fi.food_id))
      ({ db with food_items := db.food_items ++ [⟨fid, name, calories⟩] }, fid)

/-- database.py log_nutrition_entry: ensure_daily_log_exists, then
INSERT INTO nutrition_log (log_date, food_id, quantity) VALUES (?, ?, ?). -/
def log_nutrition_entry (d : String) (food_id : Nat) (quantity : ℚ) (db : DB) : DB :=
  let db1 := ensure_daily_log_exists d db
  { db1 with nutrition_log := db1.nutrition_log ++
      [⟨nextId (db1.nutrition_log.map (fun r => r.nutrition_id)), d, food_id, quantity⟩] }

/-- database.py add_or_get_workout: INSERT OR IGNORE INTO workouts keyed by
the UNIQUE name column, then SELECT workout_id WHERE name = ?. -/
def add_or_get_workout (name : String) (db : DB) : DB × Nat :=
  match db.workouts.find? (fun w => w.name == name) with
  | some w => (db, w.workout_id)
  | none =>
      let wid := nextId (db.workouts.map (fun w => w.workout_id))
      ({ db with workouts := db.workouts ++ [⟨wid, name⟩] }, wid)

/-- database.py add_or_get_exercise: INSERT OR IGNORE INTO exercises keyed
by the UNIQUE name column, then SELECT exercise_id WHERE name = ?. -/
def add_or_get_exercise (name : String) (calories_burned : Int) (db : DB) : DB × Nat :=
  match db.exercises.find? (fun e => e.name == name) with
  | some e => (db, e.exercise_id)
  | none =>
      let eid := nextId (db.exercises.map (fun e => e.exercise_id))
      ({ db with exercises := db.exercises ++ [⟨eid, name, calories_burned⟩] }, eid)

/-- database.py log_workout: ensure_daily_log_exists, then
INSERT INTO workout_log (log_date, workout_id) VALUES (?, ?). -/
def log_workout (d : String) (workout_id : Nat) (db : DB) : DB :=
  let db1 := ensure_daily_log_exists d db
  { db1 with workout_log := db1.workout_log ++
      [⟨nextId (db1.workout_log.map (fun r => r.workout_log_id)), d, workout_id⟩] }

/-- database.py log_weight: ensure_daily_log_exists, then
DELETE FROM weight_log WHERE log_date = ?, then
INSERT INTO weight_log (log_date, weight_lbs) VALUES (?, ?). -/
def log_weight (d : String) (weight_lbs : ℚ) (db : DB) : DB :=
  let db1 := ensure_daily_log_exists d db
  let kept := db1.weight_log.filter (fun r => !(r.log_date == d))
  { db1 with weight_log := kept ++
      [⟨nextId (db1.weight_log.map (fun r => r.weight_id)), d, weight_lbs⟩] }

/-- database.py get_most_recent_weight:
SELECT weight_lbs, log_date FROM weight_log ORDER BY log_date DESC LIMIT 1,
i.e. a row whose ISO date string is maximal, or none on an empty table. -/
def get_most_recent_weight (db : DB) : Option WeightRow :=
  db.weight_log.foldl (fun best r =>
    match best with
    | none => some r
    | some b => if b.log_date < r.log_date then some r else some b) none

/-- The multiset of values fi.calories * nl.quantity produced by the SQL
join of nutrition_log with food_items on food_id, restricted to one date,
in database.py get_total_consumed_calories_for_date. -/
def consumedJoin (d : String) (db : DB) : List ℚ :=
  (db.nutrition_log.filter (fun nl => nl.log_date == d)).flatMap (fun nl =>
    (db.food_items.filter (fun fi => fi.food_id == nl.food_id)).map
      (fun fi => (fi.calories : ℚ) * nl.quantity))

/-- database.py get_total_consumed_calories_for_date:
SELECT SUM(fi.calories * nl.quantity) over the join for the date; SUM is
NULL on an empty row set, which the code maps to 0, and otherwise the
Python int() truncates the REAL sum toward zero. -/
def get_total_consumed_calories_for_date (d : String) (db : DB) : Int :=
  let rows := consumedJoin d db
  if rows.isEmpty then 0 else ratTrunc rows.sum

/-- The sum of food.calories * entry.quantity across the nutrition entries
of a date, written from the specification text: each entry contributes its
referenced food item calories value times the entry quantity. -/
def specConsumedSum (d : String) (db : DB) : ℚ :=
  ((db.nutrition_log.filter (fun nl => nl.log_date == d)).map (fun nl =>
    match db.food_items.find? (fun fi => fi.food_id == nl.food_id) with
    | some fi => (fi.calories : ℚ) * nl.quantity
    | none => 0)).sum

/-- The multiset of values e.calories_burned produced by the SQL join of
workout_log with workouts on workout_id and with exercises on
e.name = w.name, restricted to one date, in database.py
get_total_workout_calories_for_date. -/
def workoutJoin (d : String) (db : DB) : List Int :=
  (db.workout_log.filter (fun wl => wl.log_date == d)).flatMap (fun wl =>
    (db.workouts.filter (fun w => w.workout_id == wl.workout_id)).flatMap (fun w =>
      (db.exercises.filter (fun e => e.name == w.name)).map
        (fun e => e.calories_burned)))

/-- database.py get_total_workout_calories_for_date:
SELECT SUM(e.calories_burned) over the name-match join for the date; SUM is
NULL on an empty row set, which the code maps to 0. -/
def get_total_workout_calories_for_date (d : String) (db : DB) : Int :=
  let rows := workoutJoin d db
  if rows.isEmpty then 0 else rows.sum

/-- The per-row reading of the workout aggregation: each workout_log row of
the date contributes the calories_burned of the exercise whose name equals
the name of the logged workout, and 0 when the workout id or a name-matching
exercise is absent. -/
def specWorkoutCalories (d : String) (db : DB) : Int :=
  ((db.workout_log.filter (fun wl => wl.log_date == d)).map (fun wl =>
    match db.workouts.find? (fun w => w.workout_id == wl.workout_id) with
    | some w =>
        match db.exercises.find? (fun e => e.name == w.name) with
        | some e => e.calories_burned
        | none => 0
    | none => 0)).sum

/-- Outcome of the evening report block of src/main.py lines 92-115: either
the process is terminated by sys.exit(1) because get_most_recent_weight
returned None, or a report is displayed. -/
inductive ReportOutcome where
  | exitMissingWeight : ReportOutcome
  | report (tdee : ℚ) (consumed : Int) (deficit : Int)
      (weight_lbs : ℚ) (weight_date : String) : ReportOutcome
  deriving DecidableEq, Repr

/-- The evening report block of src/main.py: look up the most recent
weight; on None print an error and sys.exit(1) (exitMissingWeight); else
aggregate consumed and activity calories for today, compute BMR from the
profile and that weight, TDEE, and deficit = round(tdee - consumed). -/
def generate_report (profile : Profile) (today : Date) (today_str : String)
    (db : DB) : ReportOutcome :=
  match get_most_recent_weight db with
  | none => .exitMissingWeight
  | some wrow =>
      let consumed := get_total_consumed_calories_for_date today_str db
      let activity := get_total_workout_calories_for_date today_str db
      let bmr := calculate_bmr profile wrow.weight_lbs today
      let tdee := calculate_tdee bmr activity
      let deficit := pythonRound (tdee - (consumed : ℚ))
      .report tdee consumed deficit wrow.weight_lbs wrow.log_date

/-- What ui.py display_calorie_summary prints for the deficit figure. -/
inductive SummaryLine where
  | deficitOf (n : Int) : SummaryLine
  | surplusOf (n : Int) : SummaryLine
  deriving DecidableEq, Repr

/-- The branch of ui.py display_calorie_summary on the deficit value:
deficit > 0 prints a caloric deficit of deficit, otherwise a caloric
surplus of -deficit. -/
def display_calorie_summary (deficit : Int) : SummaryLine :=
  if deficit > 0 then .deficitOf deficit else .surplusOf (-deficit)

/-- Projection of a daily_log row onto its date and evening columns, used
to state that an operation leaves the evening fields of every row intact. -/
def eveningView (r : DailyLogRow) : String × Option String × Option String × Option String :=
  (r.log_date, r.review_of_intentions, r.accomplishment, r.mood)

/-- Database state after logging Pizza Slice (350 cal) with quantity 2 and
Salad (150 cal) with quantity 1 on 2024-03-01, built with the repository
operations themselves. -/
def pizzaSaladDB : DB :=
  let p1 := add_food_item "Pizza Slice" 350 emptyDB
  let p2 := add_food_item "Salad" 150 p1.1
  log_nutrition_entry "2024-03-01" p2.2 1
    (log_nutrition_entry "2024-03-01" p1.2 2 p2.1)

/-- Database state with one food of 351 calories logged with the REAL
quantity 0.5 on 2024-03-01: the joined sum is 175.5, a non-integer. -/
def halfQuantityDB : DB :=
  { emptyDB with
      daily_log := [blankDailyLog "2024-03-01"],
      food_items := [⟨1, "Big Bar", 351⟩],
      nutrition_log := [⟨1, "2024-03-01", 1, 1 / 2⟩] }

/-- The profile of the specification example: height 180 cm, born
1990-01-15, sex Male. -/
def exampleMaleProfile : Profile :=
  ⟨"Test User", 180, ⟨1990, 1, 15⟩, "Male"⟩

/-- The specification example profile with sex Female. -/
def exampleFemaleProfile : Profile :=
  ⟨"Test User", 180, ⟨1990, 1, 15⟩, "Female"⟩

/-- A day on which the example profile is 34 years old. -/
def exampleToday : Date :=
  ⟨2024, 6, 1⟩

/-- A profile whose sex_at_birth is the uppercase string FEMALE, which is
neither of the exact strings Male and Female. -/
def upperFemaleProfile : Profile :=
  ⟨"Test User", 160, ⟨1994, 1, 1⟩, "FEMALE"⟩

/-- A minimal profile for exercising the report path: zero height, born
2000-01-01, sex Male. -/
def reportProfile : Profile :=
  ⟨"u", 0, ⟨2000, 1, 1⟩, "Male"⟩

/-- A database holding exactly one weight entry of 0 lbs on 2000-01-01. -/
def reportDB : DB :=
  log_weight "2000-01-01" 0 emptyDB

/-- Database state of the name-match example: an exercise named
Morning Run burning 300 calories, a workout of the same name, and that
workout logged on 2024-03-01; built with the repository operations. -/
def morningRunDB : DB :=
  let e := add_or_get_exercise "Morning Run" 300 emptyDB
  let w := add_or_get_workout "Morning Run" e.1
  log_workout "2024-03-01" w.2 w.1

/-- Database state holding pre-clear residue on 2024-03-01: an evening log
with filled fields, one Old Food nutrition row and one workout row. -/
def residueDB : DB :=
  { emptyDB with
      daily_log := [⟨"2024-03-01", some "dr", some "it", some "rev", some "acc", some "Okay"⟩],
      food_items := [⟨1, "Old Food", 100⟩],
      nutrition_log := [⟨1, "2024-03-01", 1, 1⟩],
      workouts := [⟨1, "Old Workout"⟩],
      workout_log := [⟨1, "2024-03-01", 1⟩] }

/-- Database state holding a daily_log row for 2024-02-29 only, with all
text fields filled. -/
def otherDayDB : DB :=
  { emptyDB with
      daily_log := [⟨"2024-02-29", some "dr", some "it", some "rev", some "acc", some "Great"⟩] }

/-- Filtering a list on key equality yields exactly the first find once the
keys of the list are pairwise distinct, as a UNIQUE or PRIMARY KEY column
guarantees. -/
theorem filter_key_eq_find {α β : Type} [BEq β] [LawfulBEq β] (f : α → β) (k : β)
    (l : List α) (h : (l.map f).Nodup) :
    l.filter (fun x => f x == k) = (l.find? (fun x => f x == k)).toList := by
  induction l with
  | nil => rfl
  | cons a t ih =>
    rw [List.map_cons, List.nodup_cons] at h
    by_cases hk : (f a == k) = true
    · have hfa : f a = k := eq_of_beq hk
      have hnil : t.filter (fun x => f x == k) = [] := by
        rw [List.filter_eq_nil_iff]
        intro x hx hxk
        exact h.1 (by rw [hfa, ← eq_of_beq hxk]; exact List.mem_map_of_mem f hx)
      simp [List.filter_cons, List.find?_cons, hk, hnil]
    · simp only [List.filter_cons, List.find?_cons, hk, if_false, Bool.false_eq_true]
      exact ih h.2

/-- Summing a flatMap is summing the per-element sums. -/
theorem sum_flatMap {α M : Type} [AddCommMonoid M] (f : α → List M) (l : List α) :
    (l.flatMap f).sum = (l.map (fun a => (f a).sum)).sum := by
  induction l with
  | nil => rfl
  | cons a t ih => rw [List.flatMap_cons, List.sum_append, List.map_cons, List.sum_cons, ih]

/-- ensure_daily_log_exists touches only the daily_log table. -/
theorem ensure_frame (d : String) (db : DB) :
    (ensure_daily_log_exists d db).weight_log = db.weight_log
    ∧ (ensure_daily_log_exists d db).food_items = db.food_items
    ∧ (ensure_daily_log_exists d db).nutrition_log = db.nutrition_log
    ∧ (ensure_daily_log_exists d db).workouts = db.workouts
    ∧ (ensure_daily_log_exists d db).exercises = db.exercises
    ∧ (ensure_daily_log_exists d db).workout_log = db.workout_log := by
  unfold ensure_daily_log_exists
  split <;> exact ⟨rfl, rfl, rfl, rfl, rfl, rfl⟩

/-- After ensure_daily_log_exists a row for the date is present. -/
theorem ensure_any (d : String) (db : DB) :
    (ensure_daily_log_exists d db).daily_log.any (fun r => r.log_date == d) = true := by
  unfold ensure_daily_log_exists
  by_cases h : db.daily_log.any (fun r => r.log_date == d) = true
  · rw [if_pos h]; exact h
  · rw [if_neg h]
    simp [blankDailyLog]

/-- ensure_daily_log_exists leaves the rows of every other date alone. -/
theorem ensure_filter_ne (d : String) (db : DB) :
    (ensure_daily_log_exists d db).daily_log.filter (fun r => !(r.log_date == d))
      = db.daily_log.filter (fun r => !(r.log_date == d)) := by
  unfold ensure_daily_log_exists
  split
  · rfl
  · rw [List.filter_append]
    simp [blankDailyLog]

/-- ensure_daily_log_exists leaves the evening view of existing rows alone:
it either appends a fully blank row or does nothing. -/
theorem ensure_eveningView (d : String) (db : DB)
    (h : db.daily_log.any (fun r => r.log_date == d) = true) :
    (ensure_daily_log_exists d db).daily_log = db.daily_log := by
  unfold ensure_daily_log_exists
  rw [if_pos h]

/-- Mapping a row update that preserves the date and is the identity away
from date d commutes with filtering the other dates away. -/
theorem filter_ne_map_update (d : String) (f : DailyLogRow → DailyLogRow)
    (hpres : ∀ r, (f r).log_date = r.log_date)
    (hid : ∀ r, r.log_date ≠ d → f r = r) (l : List DailyLogRow) :
    (l.map f).filter (fun r => !(r.log_date == d))
      = l.filter (fun r => !(r.log_date == d)) := by
  induction l with
  | nil => rfl
  | cons a t ih =>
    rw [List.map_cons]
    by_cases ha : (a.log_date == d) = true
    · have hfa : ((f a).log_date == d) = true := by rw [hpres a]; exact ha
      rw [List.filter_cons_of_neg (by simp [hfa]), List.filter_cons_of_neg (by simp [ha])]
      exact ih
    · have hane : a.log_date ≠ d := ne_of_beq_false (by simpa using ha)
      rw [hid a hane]
      rw [List.filter_cons_of_pos (by simp [ha]), List.filter_cons_of_pos (by simp [ha]), ih]

/-- The nutrition_log after log_nutrition_entry is the old table with one
appended row; the ensure step does not touch nutrition_log. -/
theorem log_nutrition_entry_log (d : String) (fid : Nat) (q : ℚ) (db : DB) :
    (log_nutrition_entry d fid q db).nutrition_log
      = db.nutrition_log
        ++ [⟨nextId (db.nutrition_log.map (fun r => r.nutrition_id)), d, fid, q⟩] := by
  simp [log_nutrition_entry, (ensure_frame d db).2.2.1]

/-- Truncation toward zero is the identity on integers. -/
theorem ratTrunc_intCast (n : Int) : ratTrunc ((n : Int) : ℚ) = n := by
  by_cases h : (0 : ℚ) ≤ (n : ℚ)
  · rw [ratTrunc, if_pos h, Int.floor_intCast]
  · rw [ratTrunc, if_neg h, show (-(n : ℚ)) = ((-n : Int) : ℚ) by push_cast; ring,
      Int.floor_intCast, neg_neg]

/-- Under distinct food ids, the SQL join sum of
get_total_consumed_calories_for_date equals the per-entry reading of the
specification: each nutrition entry contributes the calories of its food item
times its quantity. -/
theorem consumedJoin_sum_eq (d : String) (db : DB)
    (hf : (db.food_items.map (fun fi => fi.food_id)).Nodup) :
    (consumedJoin d db).sum = specConsumedSum d db := by
  unfold consumedJoin specConsumedSum
  rw [sum_flatMap]
  congr 1
  apply List.map_congr_left
  intro nl _
  rw [filter_key_eq_find (fun fi => fi.food_id) nl.food_id db.food_items hf]
  cases hff : db.food_items.find? (fun fi => fi.food_id == nl.food_id) with
  | none => rfl
  | some fi => simp

/-- Under distinct workout ids and distinct exercise names, the SQL join
sum of get_total_workout_calories_for_date equals the per-row name-match
reading. -/
theorem workoutJoin_sum_eq (d : String) (db : DB)
    (hw : (db.workouts.map (fun w => w.workout_id)).Nodup)
    (he : (db.exercises.map (fun e => e.name)).Nodup) :
    (workoutJoin d db).sum = specWorkoutCalories d db := by
  unfold workoutJoin specWorkoutCalories
  rw [sum_flatMap]
  congr 1
  apply List.map_congr_left
  intro wl _
  rw [filter_key_eq_find (fun w => w.workout_id) wl.workout_id db.workouts hw]
  cases hfw : db.workouts.find? (fun w => w.workout_id == wl.workout_id) with
  | none => rfl
  | some w =>
    simp only [Option.toList, List.flatMap_cons, List.flatMap_nil, List.append_nil]
    rw [filter_key_eq_find (fun e => e.name) w.name db.exercises he]
    cases hfe : db.exercises.find? (fun e => e.name == w.name) with
    | none => rfl
    | some e => simp

/-- C1 (amended): get_total_consumed_calories_for_date returns the joined
sum of food.calories * entry.quantity for the date truncated toward zero
by Python int() — hence exactly that sum whenever the sum is an integer,
in particular for whole quantities — and returns 0 (not null, not an
error) when the date has no nutrition entries; logging Pizza (350 cal)
with quantity 2 and Salad (150 cal) with quantity 1 yields 850. -/
theorem consumed_calories_spec (d : String) (db : DB) :
    get_total_consumed_calories_for_date d db = ratTrunc (consumedJoin d db).sum
    ∧ ((db.food_items.map (fun fi => fi.food_id)).Nodup →
        get_total_consumed_calories_for_date d db = ratTrunc (specConsumedSum d db))
    ∧ (db.nutrition_log.filter (fun nl => nl.log_date == d) = [] →
        get_total_consumed_calories_for_date d db = 0)
    ∧ (∀ n : Int, ratTrunc ((n : Int) : ℚ) = n)
    ∧ get_total_consumed_calories_for_date "2024-03-01" pizzaSaladDB = 850 := by
  have hmain : get_total_consumed_calories_for_date d db
      = ratTrunc (consumedJoin d db).sum := by
    unfold get_total_consumed_calories_for_date
    cases hj : consumedJoin d db with
    | nil => simp [ratTrunc]
    | cons a t => simp
  have hex : get_total_consumed_calories_for_date "2024-03-01" pizzaSaladDB = 850 := by
    simp [get_total_consumed_calories_for_date, consumedJoin, pizzaSaladDB, add_food_item,
      log_nutrition_entry, ensure_daily_log_exists, emptyDB, blankDailyLog, nextId,
      List.filter, List.find?, ratTrunc]
    norm_num
  refine ⟨hmain, ?_, ?_, ratTrunc_intCast, hex⟩
  · intro hf
    rw [hmain, consumedJoin_sum_eq d db hf]
  · intro hnil
    unfold get_total_consumed_calories_for_date
    have hj : consumedJoin d db = [] := by
      unfold consumedJoin
      rw [hnil]
      rfl
    rw [hj]
    rfl

/-- C1 witness: the spec-sum form and the empty-date case instantiated at
the Pizza and Salad state, and truncation at the integer 850. -/
theorem consumed_calories_spec_witness :
    get_total_consumed_calories_for_date "2024-03-01" pizzaSaladDB
      = ratTrunc (specConsumedSum "2024-03-01" pizzaSaladDB)
    ∧ get_total_consumed_calories_for_date "1999-01-01" pizzaSaladDB = 0
    ∧ ratTrunc ((850 : Int) : ℚ) = 850 :=
  ⟨(consumed_calories_spec "2024-03-01" pizzaSaladDB).2.1 (by decide),
   (consumed_calories_spec "1999-01-01" pizzaSaladDB).2.2.1 (by decide),
   (consumed_calories_spec "2024-03-01" pizzaSaladDB).2.2.2.1 850⟩

/-- C1 counterexample: with a 351-calorie food logged at REAL quantity
0.5, the sum of food.calories * entry.quantity is 175.5 but the function
returns the Python int() truncation 175, so it does not return that sum. -/
theorem consumed_calories_not_exact_sum :
    specConsumedSum "2024-03-01" halfQuantityDB = 351 / 2
    ∧ (consumedJoin "2024-03-01" halfQuantityDB).sum = 351 / 2
    ∧ get_total_consumed_calories_for_date "2024-03-01" halfQuantityDB = 175
    ∧ ((175 : ℚ) ≠ 351 / 2) := by
  refine ⟨?_, ?_, ?_, by norm_num⟩
  · simp [specConsumedSum, halfQuantityDB, emptyDB, blankDailyLog, List.filter, List.find?]
    norm_num
  · simp [consumedJoin, halfQuantityDB, emptyDB, blankDailyLog, List.filter]
    norm_num
  · simp [get_total_consumed_calories_for_date, consumedJoin, halfQuantityDB, emptyDB,
      blankDailyLog, List.filter, ratTrunc]
    norm_num

/-- C2: when the weight_log table is empty, get_most_recent_weight is
absent and the evening report path of src/main.py reaches the
exitMissingWeight outcome, modelling print to stderr followed by
sys.exit(1) terminating the process: no report is produced and no default
or zero weight enters the BMR/TDEE calculation. -/
theorem missing_weight_hard_stop (profile : Profile) (today : Date)
    (today_str : String) (db : DB) (h : db.weight_log = []) :
    get_most_recent_weight db = none
    ∧ generate_report profile today today_str db = ReportOutcome.exitMissingWeight := by
  have hm : get_most_recent_weight db = none := by
    unfold get_most_recent_weight
    rw [h]
    rfl
  refine ⟨hm, ?_⟩
  unfold generate_report
  rw [hm]

/-- C2 witness: the empty database has no weight entry and the report
request stops the process. -/
theorem missing_weight_hard_stop_witness :
    get_most_recent_weight emptyDB = none
    ∧ generate_report reportProfile ⟨2024, 6, 1⟩ "2024-06-01" emptyDB
        = ReportOutcome.exitMissingWeight :=
  missing_weight_hard_stop reportProfile ⟨2024, 6, 1⟩ "2024-06-01" emptyDB rfl

/-- C3 (amended): calculate_bmr compares the stored sex-at-birth string
case-insensitively: a value lowercasing to male takes the male
Mifflin-St Jeor branch, a value lowercasing to female takes the female
branch, and any other value falls back to the male formula; the example
profile of height 180 cm at age 34 gives about 1776.47 BMR at 180 lbs as
Male and about 1406.35 at 135 lbs as Female, both within 0.01. -/
theorem calculate_bmr_branches (p : Profile) (w : ℚ) (t : Date) :
    (pyLower p.sex_at_birth = "male" → calculate_bmr p w t = bmrMale p w t)
    ∧ (pyLower p.sex_at_birth = "female" → calculate_bmr p w t = bmrFemale p w t)
    ∧ (pyLower p.sex_at_birth ≠ "male" → pyLower p.sex_at_birth ≠ "female" →
        calculate_bmr p w t = bmrMale p w t)
    ∧ calculate_age exampleMaleProfile.birth_date exampleToday = 34
    ∧ |calculate_bmr exampleMaleProfile 180 exampleToday - 177647 / 100| ≤ 1 / 100
    ∧ |calculate_bmr exampleFemaleProfile 135 exampleToday - 140635 / 100| ≤ 1 / 100 := by
  have hage : calculate_age exampleMaleProfile.birth_date exampleToday = 34 := by decide
  have hm : |calculate_bmr exampleMaleProfile 180 exampleToday - 177647 / 100| ≤ 1 / 100 := by
    have h1 : pyLower "Male" = "male" := by decide
    simp [calculate_bmr, exampleMaleProfile, exampleToday, lbs_to_kg, calculate_age, h1]
    norm_num [abs_le]
  have hf : |calculate_bmr exampleFemaleProfile 135 exampleToday - 140635 / 100| ≤ 1 / 100 := by
    have h1 : pyLower "Female" = "female" := by decide
    simp [calculate_bmr, exampleFemaleProfile, exampleToday, lbs_to_kg, calculate_age, h1]
    norm_num [abs_le]
  refine ⟨?_, ?_, ?_, hage, hm, hf⟩
  · intro h
    unfold calculate_bmr bmrMale
    rw [if_pos h]
  · intro h
    have hne : pyLower p.sex_at_birth ≠ "male" := by
      rw [h]
      decide
    unfold calculate_bmr bmrFemale
    rw [if_neg hne, if_pos h]
  · intro h1 h2
    unfold calculate_bmr bmrMale
    rw [if_neg h1, if_neg h2]

/-- C3 witness: the branch equations instantiated at the example profiles
with sex Male and sex Female. -/
theorem calculate_bmr_branches_witness :
    calculate_bmr exampleMaleProfile 180 exampleToday
      = bmrMale exampleMaleProfile 180 exampleToday
    ∧ calculate_bmr exampleFemaleProfile 135 exampleToday
      = bmrFemale exampleFemaleProfile 135 exampleToday :=
  ⟨(calculate_bmr_branches exampleMaleProfile 180 exampleToday).1 (by decide),
   (calculate_bmr_branches exampleFemaleProfile 135 exampleToday).2.1 (by decide)⟩

/-- C3 counterexample: the sex-at-birth value FEMALE differs from both
exact strings Male and Female, yet calculate_bmr takes the female branch
(689 for this profile) rather than falling back to the male formula
(855), because the source lowercases the value before comparing. -/
theorem calculate_bmr_not_exact_match :
    upperFemaleProfile.sex_at_birth = "FEMALE"
    ∧ ("FEMALE" : String) ≠ "Male"
    ∧ ("FEMALE" : String) ≠ "Female"
    ∧ calculate_bmr upperFemaleProfile 0 exampleToday = 689
    ∧ bmrMale upperFemaleProfile 0 exampleToday = 855
    ∧ calculate_bmr upperFemaleProfile 0 exampleToday
        ≠ bmrMale upperFemaleProfile 0 exampleToday := by
  have h1 : pyLower "FEMALE" = "female" := by decide
  have hc : calculate_bmr upperFemaleProfile 0 exampleToday = 689 := by
    simp [calculate_bmr, upperFemaleProfile, exampleToday, lbs_to_kg, calculate_age, h1]
    norm_num
  have hb : bmrMale upperFemaleProfile 0 exampleToday = 855 := by
    simp [bmrMale, upperFemaleProfile, exampleToday, lbs_to_kg, calculate_age]
    norm_num
  refine ⟨rfl, by decide, by decide, hc, hb, ?_⟩
  rw [hc, hb]
  norm_num

/-- C4: calculate_tdee is bmr * 1.2 plus the logged activity calories; the
deficit of a produced daily report equals Python round(tdee - consumed),
modelled as round half to even; display_calorie_summary reports a positive
deficit as a caloric deficit and a non-positive one as a surplus of the
negated value. -/
theorem tdee_deficit_surplus (bmr2 : ℚ) (act2 : Int) (profile : Profile)
    (today : Date) (today_str : String) (db : DB) (tdee : ℚ)
    (consumed deficit : Int) (w : ℚ) (wd : String)
    (h : generate_report profile today today_str db
          = ReportOutcome.report tdee consumed deficit w wd) :
    calculate_tdee bmr2 act2 = bmr2 * (6 / 5) + (act2 : ℚ)
    ∧ deficit = pythonRound (tdee - (consumed : ℚ))
    ∧ (∀ dz : Int, 0 < dz → display_calorie_summary dz = SummaryLine.deficitOf dz)
    ∧ (∀ dz : Int, dz ≤ 0 → display_calorie_summary dz = SummaryLine.surplusOf (-dz)) := by
  refine ⟨rfl, ?_, ?_, ?_⟩
  · unfold generate_report at h
    cases hget : get_most_recent_weight db with
    | none =>
        rw [hget] at h
        exact ReportOutcome.noConfusion h
    | some wrow =>
        rw [hget] at h
        simp only [ReportOutcome.report.injEq] at h
        obtain ⟨h1, h2, h3, h4, h5⟩ := h
        rw [← h1, ← h2, ← h3]
  · intro dz hdz
    unfold display_calorie_summary
    rw [if_pos hdz]
  · intro dz hdz
    unfold display_calorie_summary
    rw [if_neg (not_lt.mpr hdz)]

/-- C4 witness: the TDEE equation, deficit equation and both display
branches instantiated on a concrete produced report. -/
theorem tdee_deficit_surplus_witness :
    calculate_tdee 5 0 = 5 * (6 / 5) + ((0 : Int) : ℚ)
    ∧ (6 : Int) = pythonRound ((6 : ℚ) - ((0 : Int) : ℚ))
    ∧ display_calorie_summary 6 = SummaryLine.deficitOf 6
    ∧ display_calorie_summary (-4) = SummaryLine.surplusOf 4 := by
  have hrep : generate_report reportProfile ⟨2000, 1, 1⟩ "2000-01-01" reportDB
      = ReportOutcome.report 6 0 6 0 "2000-01-01" := by
    have hw : get_most_recent_weight reportDB = some ⟨1, "2000-01-01", 0⟩ := by decide
    have h1 : pyLower "Male" = "male" := by decide
    have hc : get_total_consumed_calories_for_date "2000-01-01" reportDB = 0 := by decide
    have ha : get_total_workout_calories_for_date "2000-01-01" reportDB = 0 := by decide
    have hb : calculate_bmr reportProfile 0 ⟨2000, 1, 1⟩ = 5 := by
      simp [calculate_bmr, reportProfile, lbs_to_kg, calculate_age, h1]
    have ht : calculate_tdee 5 0 = 6 := by
      norm_num [calculate_tdee]
    simp [generate_report, hw, hc, ha, hb, ht]
    norm_num [pythonRound]
  have h := tdee_deficit_surplus 5 0 reportProfile ⟨2000, 1, 1⟩ "2000-01-01"
    reportDB 6 0 6 0 "2000-01-01" hrep
  exact ⟨h.1, h.2.1, h.2.2.1 6 (by decide), h.2.2.2 (-4) (by decide)⟩

/-- C5: under the UNIQUE constraints of the schema (distinct workout ids,
distinct exercise names), get_total_workout_calories_for_date is the sum
over the workout_log rows of the date of the calories_burned of the
exercise whose name is identical to the name of the logged workout — the
name-match shortcut, not the many-to-many composition — where a row
without a name-matching exercise contributes nothing, and the result is 0
when nothing matches on the date. -/
theorem workout_calories_name_match (d : String) (db : DB)
    (hw : (db.workouts.map (fun w => w.workout_id)).Nodup)
    (he : (db.exercises.map (fun e => e.name)).Nodup) :
    get_total_workout_calories_for_date d db = specWorkoutCalories d db
    ∧ (db.workout_log.filter (fun wl => wl.log_date == d) = [] →
        get_total_workout_calories_for_date d db = 0)
    ∧ (workoutJoin d db = [] → get_total_workout_calories_for_date d db = 0) := by
  have hmain : get_total_workout_calories_for_date d db = (workoutJoin d db).sum := by
    unfold get_total_workout_calories_for_date
    cases hj : workoutJoin d db with
    | nil => simp
    | cons a t => simp
  refine ⟨?_, ?_, ?_⟩
  · rw [hmain, workoutJoin_sum_eq d db hw he]
  · intro hnil
    have hj : workoutJoin d db = [] := by
      unfold workoutJoin
      rw [hnil]
      rfl
    rw [hmain, hj]
    rfl
  · intro hnil
    rw [hmain, hnil]
    rfl

/-- C5 witness: a Morning Run exercise of 300 calories matched by name to
a logged workout of the same name yields 300 on the logged date and 0 on
a date without workout rows. -/
theorem workout_calories_name_match_witness :
    get_total_workout_calories_for_date "2024-03-01" morningRunDB
      = specWorkoutCalories "2024-03-01" morningRunDB
    ∧ get_total_workout_calories_for_date "2024-03-01" morningRunDB = 300
    ∧ get_total_workout_calories_for_date "1999-01-01" morningRunDB = 0 := by
  have h := workout_calories_name_match "2024-03-01" morningRunDB (by decide) (by decide)
  have h2 := workout_calories_name_match "1999-01-01" morningRunDB (by decide) (by decide)
  exact ⟨h.1, by decide, h2.2.1 (by decide)⟩

/-- C6: logging a weight for a date and then logging another weight for
the same date leaves exactly one weight row for that date, holding the
second value: log_weight deletes the rows of the date before inserting,
so it replaces rather than appends. -/
theorem log_weight_replaces (db : DB) (d : String) (w1 w2 : ℚ) :
    ((log_weight d w2 (log_weight d w1 db)).weight_log.filter
        (fun r => r.log_date == d)).map (fun r => r.weight_lbs) = [w2]
    ∧ ((log_weight d w2 (log_weight d w1 db)).weight_log.filter
        (fun r => r.log_date == d)).length = 1 := by
  have hfr1 := (ensure_frame d db).1
  have hfr2 := (ensure_frame d (log_weight d w1 db)).1
  constructor <;>
    simp [log_weight, hfr1, hfr2, List.filter_append, List.filter_filter]

/-- C7: clear_evening_data_for_date deletes every nutrition_log and
workout_log row of the date and nulls the three evening text fields of
the daily_log row of the date; consequently two nutrition entries logged after
the clear are exactly the rows present for the date, with no residue. -/
theorem clear_evening_resets (db : DB) (d : String) :
    (clear_evening_data_for_date d db).nutrition_log.filter (fun r => r.log_date == d) = []
    ∧ (clear_evening_data_for_date d db).workout_log.filter (fun r => r.log_date == d) = []
    ∧ (∀ r ∈ (clear_evening_data_for_date d db).daily_log, r.log_date = d →
        r.review_of_intentions = none ∧ r.accomplishment = none ∧ r.mood = none)
    ∧ (∀ fid : Nat, ∀ q : ℚ,
        ((log_nutrition_entry d fid q (log_nutrition_entry d fid q
            (clear_evening_data_for_date d db))).nutrition_log.filter
          (fun r => r.log_date == d)).map (fun r => (r.log_date, r.food_id, r.quantity))
        = [(d, fid, q), (d, fid, q)]) := by
  have h1 : (clear_evening_data_for_date d db).nutrition_log.filter
      (fun r => r.log_date == d) = [] := by
    simp [clear_evening_data_for_date, List.filter_filter]
  refine ⟨h1, ?_, ?_, ?_⟩
  · simp [clear_evening_data_for_date, List.filter_filter]
  · intro r hr hd
    simp only [clear_evening_data_for_date, List.mem_map] at hr
    obtain ⟨r0, h0, heq⟩ := hr
    by_cases hcase : (r0.log_date == d) = true
    · rw [if_pos hcase] at heq
      rw [← heq]
      exact ⟨rfl, rfl, rfl⟩
    · rw [if_neg hcase] at heq
      rw [← heq] at hd
      exact absurd hd (ne_of_beq_false (by simpa using hcase))
  · intro fid q
    rw [log_nutrition_entry_log, log_nutrition_entry_log]
    simp [List.filter_append, h1]

/-- C7 witness: clearing a day holding an old nutrition row, an old
workout row and filled evening fields, then logging food id 2 twice with
quantity 1, leaves exactly those two rows for the date. -/
theorem clear_evening_resets_witness :
    (clear_evening_data_for_date "2024-03-01" residueDB).nutrition_log.filter
      (fun r => r.log_date == "2024-03-01") = []
    ∧ ((log_nutrition_entry "2024-03-01" 2 1 (log_nutrition_entry "2024-03-01" 2 1
        (clear_evening_data_for_date "2024-03-01" residueDB))).nutrition_log.filter
        (fun r => r.log_date == "2024-03-01")).map (fun r => (r.log_date, r.food_id, r.quantity))
      = [("2024-03-01", 2, 1), ("2024-03-01", 2, 1)] := by
  have h := clear_evening_resets residueDB "2024-03-01"
  exact ⟨h.1, h.2.2.2 2 1⟩

/-- C8: ensure_daily_log_exists inserts a blank row when the date is
absent, is a no-op when a row is present (INSERT OR IGNORE never raises),
and calling it twice leaves exactly one daily_log row for the date. -/
theorem ensure_daily_log_idempotent (db : DB) (d : String)
    (h : (db.daily_log.filter (fun r => r.log_date == d)).length ≤ 1) :
    ((ensure_daily_log_exists d (ensure_daily_log_exists d db)).daily_log.filter
        (fun r => r.log_date == d)).length = 1
    ∧ (db.daily_log.any (fun r => r.log_date == d) = true →
        ensure_daily_log_exists d db = db)
    ∧ (db.daily_log.any (fun r => r.log_date == d) = false →
        (ensure_daily_log_exists d db).daily_log = db.daily_log ++ [blankDailyLog d]) := by
  have hpos : ∀ X : DB, X.daily_log.any (fun r => r.log_date == d) = true →
      ensure_daily_log_exists d X = X := by
    intro X hX
    unfold ensure_daily_log_exists
    rw [if_pos hX]
  have hneg : db.daily_log.any (fun r => r.log_date == d) = false →
      (ensure_daily_log_exists d db).daily_log = db.daily_log ++ [blankDailyLog d] := by
    intro ha
    unfold ensure_daily_log_exists
    rw [if_neg (by simp [ha])]
  refine ⟨?_, hpos db, hneg⟩
  by_cases ha : db.daily_log.any (fun r => r.log_date == d) = true
  · rw [hpos db ha, hpos db ha]
    obtain ⟨x, hx, hpx⟩ := List.any_eq_true.mp ha
    have hmem : x ∈ db.daily_log.filter (fun r => r.log_date == d) :=
      List.mem_filter.mpr ⟨hx, hpx⟩
    have hlen : 0 < (db.daily_log.filter (fun r => r.log_date == d)).length :=
      List.length_pos.mpr (fun hnil => by rw [hnil] at hmem; exact absurd hmem (by simp))
    omega
  · have ha' : db.daily_log.any (fun r => r.log_date == d) = false := by
      revert ha
      cases db.daily_log.any (fun r => r.log_date == d) <;> simp
    rw [hpos _ (ensure_any d db)]
    have hfil : db.daily_log.filter (fun r => r.log_date == d) = [] := by
      rw [List.filter_eq_nil_iff]
      exact List.any_eq_false.mp ha'
    have hd' := hneg ha'
    rw [hd', List.filter_append, hfil]
    simp [blankDailyLog]

/-- C8 witness: on the empty database, ensuring twice yields exactly one
row for the date, and the absence branch appends the blank row. -/
theorem ensure_daily_log_idempotent_witness :
    ((ensure_daily_log_exists "2024-03-01" (ensure_daily_log_exists "2024-03-01"
        emptyDB)).daily_log.filter (fun r => r.log_date == "2024-03-01")).length = 1
    ∧ (ensure_daily_log_exists "2024-03-01" emptyDB).daily_log
        = emptyDB.daily_log ++ [blankDailyLog "2024-03-01"] := by
  have h := ensure_daily_log_idempotent emptyDB "2024-03-01" (by decide)
  exact ⟨h.1, h.2.2 (by decide)⟩

/-- C9: save_morning_log first ensures the daily_log row of the date
exists, then overwrites exactly the morning fields (dreams, intentions)
of the rows of that date: every other table is untouched, the date and
evening columns of every daily_log row are unchanged (exactly as they
were before when the row already existed), and the rows of other dates
are untouched. -/
theorem save_morning_log_frame (db : DB) (d dreams intentions : String) :
    (save_morning_log d dreams intentions db).weight_log = db.weight_log
    ∧ (save_morning_log d dreams intentions db).food_items = db.food_items
    ∧ (save_morning_log d dreams intentions db).nutrition_log = db.nutrition_log
    ∧ (save_morning_log d dreams intentions db).workouts = db.workouts
    ∧ (save_morning_log d dreams intentions db).exercises = db.exercises
    ∧ (save_morning_log d dreams intentions db).workout_log = db.workout_log
    ∧ (save_morning_log d dreams intentions db).daily_log.any
        (fun r => r.log_date == d) = true
    ∧ (∀ r ∈ (save_morning_log d dreams intentions db).daily_log, r.log_date = d →
        r.dreams = some dreams ∧ r.intentions = some intentions)
    ∧ (save_morning_log d dreams intentions db).daily_log.map eveningView
        = (ensure_daily_log_exists d db).daily_log.map eveningView
    ∧ (db.daily_log.any (fun r => r.log_date == d) = true →
        (save_morning_log d dreams intentions db).daily_log.map eveningView
          = db.daily_log.map eveningView)
    ∧ (save_morning_log d dreams intentions db).daily_log.filter
        (fun r => !(r.log_date == d))
        = db.daily_log.filter (fun r => !(r.log_date == d)) := by
  have hfr := ensure_frame d db
  have hdaily : (save_morning_log d dreams intentions db).daily_log
      = (ensure_daily_log_exists d db).daily_log.map (fun r =>
          if r.log_date == d then
            { r with dreams := some dreams, intentions := some intentions }
          else r) := by
    simp [save_morning_log]
  have hpres : ∀ r : DailyLogRow,
      ((if r.log_date == d then
          { r with dreams := some dreams, intentions := some intentions }
        else r) : DailyLogRow).log_date = r.log_date := by
    intro r
    by_cases hr : (r.log_date == d) = true <;> simp [hr]
  have hev : (save_morning_log d dreams intentions db).daily_log.map eveningView
      = (ensure_daily_log_exists d db).daily_log.map eveningView := by
    rw [hdaily, List.map_map]
    apply List.map_congr_left
    intro r _
    by_cases hr : r.log_date = d <;> simp [eveningView, hr]
  refine ⟨by simp [save_morning_log, hfr.1], by simp [save_morning_log, hfr.2.1],
    by simp [save_morning_log, hfr.2.2.1], by simp [save_morning_log, hfr.2.2.2.1],
    by simp [save_morning_log, hfr.2.2.2.2.1], by simp [save_morning_log, hfr.2.2.2.2.2],
    ?_, ?_, hev, ?_, ?_⟩
  · rw [hdaily, List.any_map]
    have hfun : ((fun r : DailyLogRow => r.log_date == d) ∘ (fun r =>
        if r.log_date == d then
          { r with dreams := some dreams, intentions := some intentions }
        else r)) = fun r : DailyLogRow => r.log_date == d := by
      funext r
      simp only [Function.comp]
      rw [hpres r]
    rw [hfun]
    exact ensure_any d db
  · intro r hr hd
    rw [hdaily] at hr
    obtain ⟨r0, h0, heq⟩ := List.mem_map.mp hr
    by_cases hcase : (r0.log_date == d) = true
    · rw [if_pos hcase] at heq
      rw [← heq]
      exact ⟨rfl, rfl⟩
    · rw [if_neg hcase] at heq
      rw [← heq] at hd
      exact absurd hd (ne_of_beq_false (by simpa using hcase))
  · intro ha
    rw [hev]
    congr 1
    exact congrArg DB.daily_log (by unfold ensure_daily_log_exists; rw [if_pos ha])
  · rw [hdaily]
    rw [filter_ne_map_update d _ hpres ?_ _]
    · exact ensure_filter_ne d db
    · intro r hrne
      rw [if_neg]
      intro hcon
      exact hrne (eq_of_beq hcon)

/-- C9 witness: saving a morning log over a day whose evening fields are
filled keeps the evening view of the daily_log table and leaves a row for
the date present. -/
theorem save_morning_log_frame_witness :
    (save_morning_log "2024-02-29" "new dream" "new intention" otherDayDB).daily_log.map
        eveningView
      = otherDayDB.daily_log.map eveningView
    ∧ (save_morning_log "2024-02-29" "new dream" "new intention" otherDayDB).daily_log.any
        (fun r => r.log_date == "2024-02-29") = true := by
  have h := save_morning_log_frame otherDayDB "2024-02-29" "new dream" "new intention"
  exact ⟨h.2.2.2.2.2.2.2.2.2.1 (by decide), h.2.2.2.2.2.2.1⟩

/-- C10: on a date with no daily_log row, clear_morning_data_for_date is a
complete no-op on the whole database state and clear_evening_data_for_date
leaves the daily_log table unchanged: neither clear operation runs the
ensure step, so no row is created, and both total functions complete
without error. -/
theorem clear_unlogged_date_noop (db : DB) (d : String)
    (h : ∀ r ∈ db.daily_log, r.log_date ≠ d) :
    clear_morning_data_for_date d db = db
    ∧ (clear_evening_data_for_date d db).daily_log = db.daily_log := by
  have hmap : ∀ g : DailyLogRow → DailyLogRow,
      (∀ r, r.log_date ≠ d → g r = r) → db.daily_log.map g = db.daily_log := by
    intro g hg
    have h1 : db.daily_log.map g = db.daily_log.map id :=
      List.map_congr_left (fun a ha => hg a (h a ha))
    rw [h1, List.map_id]
  constructor
  · unfold clear_morning_data_for_date
    rw [hmap _ ?_]
    · intro r hrne
      rw [if_neg]
      intro hcon
      exact hrne (eq_of_beq hcon)
  · unfold clear_evening_data_for_date
    rw [hmap _ ?_]
    · intro r hrne
      rw [if_neg]
      intro hcon
      exact hrne (eq_of_beq hcon)

/-- C10 witness: clearing a date that was never logged, on a database that
holds a row for a different date, changes nothing in daily_log. -/
theorem clear_unlogged_date_noop_witness :
    clear_morning_data_for_date "2024-03-05" otherDayDB = otherDayDB
    ∧ (clear_evening_data_for_date "2024-03-05" otherDayDB).daily_log
        = otherDayDB.daily_log := by
  have h := clear_unlogged_date_noop otherDayDB "2024-03-05" (by decide)
  exact ⟨h.1, h.2⟩

end WolfTracker
